import Mathlib

/-!
Shallow embedding of the fake-vcons repository: the vCon validation rule
engine and batch pipeline of `src/lint.py`, and the migration transform of
`src/migrations/2024_11_8.py`.

Parsed JSON documents are modelled by the `Json` tree below.  The Python
code treats fields dynamically, so the embedding models the semantics of
the Python primitives it uses (`in`, subscripting, `str.startswith`,
`str.replace`, `isinstance`) on every `Json` shape, raising where CPython
raises: fallible evaluation is `Except PyErr`.  ISO-8601 timestamp parsing
(`datetime.fromisoformat`) and JSON file reading (`open` + `json.load`)
are external collaborators of the repository, abstracted as parameters
(`iso : String → Bool`, `read : FPath → ReadResult`); the text carried by a
raised exception (`str(e)`) is abstracted by `pyErrStr`, since the code
never branches on it.
-/

namespace FakeVcons

/-- A parsed JSON value, as Python's `json.load` produces one: `null`, `bool`,
`int`, `float`, `str`, `list`, `dict`.  The numeric value of a float is never
used by the code (floats are only ever `isinstance`-checked), so `float`
carries an opaque tag. -/
inductive Json where
  | null : Json
  | bool (b : Bool) : Json
  | int (n : Int) : Json
  | float (tag : String) : Json
  | str (s : String) : Json
  | arr (elems : List Json) : Json
  | obj (kvs : List (String × Json)) : Json

/-- The exception classes the embedded code can raise and does not catch
locally. -/
inductive PyErr where
  | typeError : PyErr
  | attributeError : PyErr
  | keyError : PyErr

/-- Rendering of a raised exception for `f"... {str(e)}"`: the exact CPython
message text is abstracted, the code never inspects it. -/
def pyErrStr : PyErr → String
  | .typeError => "TypeError"
  | .attributeError => "AttributeError"
  | .keyError => "KeyError"

/-- Whether the first list of characters is a prefix of the second. -/
def isPrefixOfChars : List Char → List Char → Bool
  | [], _ => true
  | _ :: _, [] => false
  | a :: as, b :: bs => a == b && isPrefixOfChars as bs

/-- Python substring containment `needle in haystack` on character lists. -/
def containsChars (needle : List Char) : List Char → Bool
  | [] => needle.isEmpty
  | c :: rest => isPrefixOfChars needle (c :: rest) || containsChars needle rest

/-- First value bound to `key` in an association list (Python dicts from
`json.load` have unique keys). -/
def lookupKey (kvs : List (String × Json)) (key : String) : Option Json :=
  match kvs with
  | [] => none
  | (k, v) :: rest => if k == key then some v else lookupKey rest key

/-- Python `key in dict`. -/
def hasKey (kvs : List (String × Json)) (key : String) : Bool :=
  (lookupKey kvs key).isSome

/-- Python `==` between a string and an arbitrary value: equal only to an
equal string (JSON values carry no user-defined `__eq__`). -/
def pyEqStr (s : String) : Json → Bool
  | .str t => s == t
  | _ => false

/-- Python `key in container` for a string `key`: key membership for a dict,
substring test for a string, element membership for a list; `TypeError` for
`None`, booleans and numbers, which are not iterable. -/
def pyIn (key : String) : Json → Except PyErr Bool
  | .obj kvs => .ok (hasKey kvs key)
  | .str s => .ok (containsChars key.data s.data)
  | .arr xs => .ok (xs.any fun e => pyEqStr key e)
  | _ => .error .typeError

/-- Python `container[key]` for a string `key`: dict lookup (`KeyError` when
absent — unreachable in this code, which always tests `in` first); `TypeError`
for every other shape (string and list indices must be integers). -/
def pyGetItem : Json → String → Except PyErr Json
  | .obj kvs, key =>
    match lookupKey kvs key with
    | some v => .ok v
    | none => .error .keyError
  | _, _ => .error .typeError

/-- Python `value.startswith(pre)`: only strings have the attribute. -/
def pyStartsWith (v : Json) (pre : String) : Except PyErr Bool :=
  match v with
  | .str s => .ok (isPrefixOfChars pre.data s.data)
  | _ => .error .attributeError

/-- Python `isinstance(v, str)`. -/
def isStr : Json → Bool
  | .str _ => true
  | _ => false

/-- Python `isinstance(v, list)`. -/
def isList : Json → Bool
  | .arr _ => true
  | _ => false

/-- Python `isinstance(v, int)`: `bool` is a subclass of `int` in Python, so
`True` and `False` pass this check. -/
def isIntPy : Json → Bool
  | .int _ => true
  | .bool _ => true
  | _ => false

/-- Python `isinstance(v, (int, list))`, the check on a dialog's `parties`. -/
def isIntOrListPy (v : Json) : Bool :=
  isIntPy v || isList v

/-- Python `isinstance(v, (int, float))`, the check on a dialog's `duration`
(booleans pass, being ints). -/
def isNumPy : Json → Bool
  | .int _ => true
  | .bool _ => true
  | .float _ => true
  | _ => false

/-- Sequencing of two validation steps: Python runs the first, then the
second, concatenating the findings; the first raised exception propagates. -/
def exSeq (a b : Except PyErr (List String)) : Except PyErr (List String) :=
  match a with
  | .error e => .error e
  | .ok xs =>
    match b with
    | .error e => .error e
    | .ok ys => .ok (xs ++ ys)

/-! Finding messages, verbatim from `src/lint.py` (f-strings render a `Nat`
index in decimal, and `{valid_types}` renders as the Python list repr). -/

/-- Message of `lint.py:22`. -/
def missingFieldMsg (field : String) : String :=
  "Missing required field: " ++ field

/-- Message of `lint.py:26`. -/
def versionMsg : String := "Invalid vcon version. Expected '0.0.1'"

/-- Message of `lint.py:30`. -/
def uuidMsg : String := "UUID must be a string"

/-- Message of `lint.py:37`. -/
def createdAtMsg : String := "Invalid created_at date format"

/-- Message of `lint.py:44`. -/
def updatedAtMsg : String := "Invalid updated_at date format"

/-- Message of `lint.py:91`. -/
def partyIdentMsg (index : Nat) : String :=
  ("Party " ++ toString index) ++ " must have at least one identifier (tel, mailto, or name)"

/-- Message of `lint.py:95`. -/
def partyTelMsg (index : Nat) : String :=
  ("Party " ++ toString index) ++ ": tel must start with '+'"

/-- Message of `lint.py:99`. -/
def partyMailtoMsg (index : Nat) : String :=
  ("Party " ++ toString index) ++ ": invalid mailto format"

/-- Message of `lint.py:110`. -/
def dialogMissingMsg (index : Nat) (field : String) : String :=
  ("Dialog " ++ toString index) ++ (": Missing required field: " ++ field)

/-- Message of `lint.py:115`: `{valid_types}` renders as the Python repr of
the list of allowed type literals. -/
def dialogTypeMsg (index : Nat) : String :=
  ("Dialog " ++ toString index) ++ ": Invalid type. Must be one of ['recording', 'text', 'transfer', 'incomplete']"

/-- Message of `lint.py:122`. -/
def dialogStartMsg (index : Nat) : String :=
  ("Dialog " ++ toString index) ++ ": Invalid start date format"

/-- Message of `lint.py:127`. -/
def dialogPartiesMsg (index : Nat) : String :=
  ("Dialog " ++ toString index) ++ ": parties must be an integer or an array of integers"

/-- Message of `lint.py:131`. -/
def dialogDurationMsg (index : Nat) : String :=
  ("Dialog " ++ toString index) ++ ": duration must be a number"

/-- Message of `lint.py:142`. -/
def analysisTypeMsg (index : Nat) : String :=
  ("Analysis " ++ toString index) ++ ": Missing required field: type"

/-- Message of `lint.py:80`. -/
def exclusivityMsg : String := "redacted, appended, and group are mutually exclusive"

/-! The rule engine: `validate_party`, `validate_dialog`, `validate_analysis`,
`validate_attachment`, `validate_vcon` from `src/lint.py`. -/

/-- `lint.py:89-91`: `if not any(identifier in party for identifier in
["tel", "mailto", "name"])` — `any` short-circuits at the first hit. -/
def partyIdentifierCheck (party : Json) (index : Nat) : Except PyErr (List String) :=
  match pyIn "tel" party with
  | .error e => .error e
  | .ok true => .ok []
  | .ok false =>
    match pyIn "mailto" party with
    | .error e => .error e
    | .ok true => .ok []
    | .ok false =>
      match pyIn "name" party with
      | .error e => .error e
      | .ok true => .ok []
      | .ok false => .ok [partyIdentMsg index]

/-- `lint.py:94-95`: `if "tel" in party and not party["tel"].startswith("+")`. -/
def partyTelCheck (party : Json) (index : Nat) : Except PyErr (List String) :=
  match pyIn "tel" party with
  | .error e => .error e
  | .ok false => .ok []
  | .ok true =>
    match pyGetItem party "tel" with
    | .error e => .error e
    | .ok v =>
      match pyStartsWith v "+" with
      | .error e => .error e
      | .ok b => .ok (if b then [] else [partyTelMsg index])

/-- `lint.py:98-99`: `if "mailto" in party and "@" not in party["mailto"]`. -/
def partyMailtoCheck (party : Json) (index : Nat) : Except PyErr (List String) :=
  match pyIn "mailto" party with
  | .error e => .error e
  | .ok false => .ok []
  | .ok true =>
    match pyGetItem party "mailto" with
    | .error e => .error e
    | .ok v =>
      match pyIn "@" v with
      | .error e => .error e
      | .ok b => .ok (if b then [] else [partyMailtoMsg index])

/-- `validate_party` (`lint.py:84-101`). -/
def validate_party (party : Json) (index : Nat) : Except PyErr (List String) :=
  exSeq (partyIdentifierCheck party index)
    (exSeq (partyTelCheck party index) (partyMailtoCheck party index))

/-- `lint.py:107-110`: the loop over required dialog fields. -/
def dialogRequiredCheck (dialog : Json) (index : Nat) : Except PyErr (List String) :=
  match pyIn "type" dialog with
  | .error e => .error e
  | .ok t =>
    match pyIn "start" dialog with
    | .error e => .error e
    | .ok s =>
      match pyIn "parties" dialog with
      | .error e => .error e
      | .ok p =>
        .ok ((if t then [] else [dialogMissingMsg index "type"]) ++
             ((if s then [] else [dialogMissingMsg index "start"]) ++
              (if p then [] else [dialogMissingMsg index "parties"])))

/-- The allowed dialog types (`lint.py:113`). -/
def validTypes : List String := ["recording", "text", "transfer", "incomplete"]

/-- `lint.py:114-115`: `if "type" in dialog and dialog["type"] not in
valid_types` — list membership compares with `==`, never raising. -/
def dialogTypeCheck (dialog : Json) (index : Nat) : Except PyErr (List String) :=
  match pyIn "type" dialog with
  | .error e => .error e
  | .ok false => .ok []
  | .ok true =>
    match pyGetItem dialog "type" with
    | .error e => .error e
    | .ok v => .ok (if validTypes.any (fun t => pyEqStr t v) then [] else [dialogTypeMsg index])

/-- `lint.py:118-122`: `datetime.fromisoformat(dialog["start"])` with only
`ValueError` caught — a non-string argument raises `TypeError`, uncaught. -/
def dialogStartCheck (iso : String → Bool) (dialog : Json) (index : Nat) :
    Except PyErr (List String) :=
  match pyIn "start" dialog with
  | .error e => .error e
  | .ok false => .ok []
  | .ok true =>
    match pyGetItem dialog "start" with
    | .error e => .error e
    | .ok v =>
      match v with
      | .str s => .ok (if iso s then [] else [dialogStartMsg index])
      | _ => .error .typeError

/-- `lint.py:125-127`: `if not isinstance(dialog["parties"], (int, list))`. -/
def dialogPartiesCheck (dialog : Json) (index : Nat) : Except PyErr (List String) :=
  match pyIn "parties" dialog with
  | .error e => .error e
  | .ok false => .ok []
  | .ok true =>
    match pyGetItem dialog "parties" with
    | .error e => .error e
    | .ok v => .ok (if isIntOrListPy v then [] else [dialogPartiesMsg index])

/-- `lint.py:130-131`: `if "duration" in dialog and not
isinstance(dialog["duration"], (int, float))`. -/
def dialogDurationCheck (dialog : Json) (index : Nat) : Except PyErr (List String) :=
  match pyIn "duration" dialog with
  | .error e => .error e
  | .ok false => .ok []
  | .ok true =>
    match pyGetItem dialog "duration" with
    | .error e => .error e
    | .ok v => .ok (if isNumPy v then [] else [dialogDurationMsg index])

/-- `validate_dialog` (`lint.py:103-133`). -/
def validate_dialog (iso : String → Bool) (dialog : Json) (index : Nat) :
    Except PyErr (List String) :=
  exSeq (dialogRequiredCheck dialog index)
    (exSeq (dialogTypeCheck dialog index)
      (exSeq (dialogStartCheck iso dialog index)
        (exSeq (dialogPartiesCheck dialog index) (dialogDurationCheck dialog index))))

/-- `validate_analysis` (`lint.py:135-144`): only `type` is required. -/
def validate_analysis (analysis : Json) (index : Nat) : Except PyErr (List String) :=
  match pyIn "type" analysis with
  | .error e => .error e
  | .ok t => .ok (if t then [] else [analysisTypeMsg index])

/-- `validate_attachment` (`lint.py:146-150`): no checks, always no findings. -/
def validate_attachment (_attachment : Json) (_index : Nat) : Except PyErr (List String) :=
  .ok []

/-- The `for i, x in enumerate(xs): errors.extend(f(x, i))` pattern of
`validate_vcon`, starting at `index`. -/
def validateEach (f : Json → Nat → Except PyErr (List String)) (xs : List Json)
    (index : Nat) : Except PyErr (List String) :=
  match xs with
  | [] => .ok []
  | x :: rest => exSeq (f x index) (validateEach f rest (index + 1))

/-- `lint.py:19-22`: the loop over required top-level fields. -/
def requiredFieldsCheck (vcon : Json) : Except PyErr (List String) :=
  match pyIn "vcon" vcon with
  | .error e => .error e
  | .ok a =>
    match pyIn "uuid" vcon with
    | .error e => .error e
    | .ok b =>
      match pyIn "created_at" vcon with
      | .error e => .error e
      | .ok c =>
        .ok ((if a then [] else [missingFieldMsg "vcon"]) ++
             ((if b then [] else [missingFieldMsg "uuid"]) ++
              (if c then [] else [missingFieldMsg "created_at"])))

/-- `lint.py:25-26`: `if "vcon" in vcon and vcon["vcon"] != "0.0.1"`. -/
def versionCheck (vcon : Json) : Except PyErr (List String) :=
  match pyIn "vcon" vcon with
  | .error e => .error e
  | .ok false => .ok []
  | .ok true =>
    match pyGetItem vcon "vcon" with
    | .error e => .error e
    | .ok v => .ok (if pyEqStr "0.0.1" v then [] else [versionMsg])

/-- `lint.py:29-30`: `if "uuid" in vcon and not isinstance(vcon["uuid"], str)`. -/
def uuidCheck (vcon : Json) : Except PyErr (List String) :=
  match pyIn "uuid" vcon with
  | .error e => .error e
  | .ok false => .ok []
  | .ok true =>
    match pyGetItem vcon "uuid" with
    | .error e => .error e
    | .ok v => .ok (if isStr v then [] else [uuidMsg])

/-- `lint.py:33-37` and `40-44`: `datetime.fromisoformat` on a timestamp
field, with only `ValueError` caught — a non-string value raises `TypeError`,
uncaught. -/
def timestampCheck (iso : String → Bool) (vcon : Json) (field msg : String) :
    Except PyErr (List String) :=
  match pyIn field vcon with
  | .error e => .error e
  | .ok false => .ok []
  | .ok true =>
    match pyGetItem vcon field with
    | .error e => .error e
    | .ok v =>
      match v with
      | .str s => .ok (if iso s then [] else [msg])
      | _ => .error .typeError

/-- The array-then-element pattern of `lint.py:47-76`: if the field is
present it must be a `list`, else one finding; a list is validated element
by element. -/
def arraySectionCheck (vcon : Json) (field notArrayMsg : String)
    (f : Json → Nat → Except PyErr (List String)) : Except PyErr (List String) :=
  match pyIn field vcon with
  | .error e => .error e
  | .ok false => .ok []
  | .ok true =>
    match pyGetItem vcon field with
    | .error e => .error e
    | .ok v =>
      match v with
      | .arr xs => validateEach f xs 0
      | _ => .ok [notArrayMsg]

/-- How many of `redacted`, `appended`, `group` are present as keys of an
object (`lint.py:79`). -/
def exclusiveKeyCount (kvs : List (String × Json)) : Nat :=
  (if hasKey kvs "redacted" then 1 else 0) +
    ((if hasKey kvs "appended" then 1 else 0) + (if hasKey kvs "group" then 1 else 0))

/-- `lint.py:79-80`: `if sum(key in vcon for key in ["redacted", "appended",
"group"]) > 1` — the generator evaluates all three membership tests. -/
def exclusivityCheck (vcon : Json) : Except PyErr (List String) :=
  match pyIn "redacted" vcon with
  | .error e => .error e
  | .ok a =>
    match pyIn "appended" vcon with
    | .error e => .error e
    | .ok b =>
      match pyIn "group" vcon with
      | .error e => .error e
      | .ok c =>
        .ok (if 1 < (if a then 1 else 0) +
                ((if b then 1 else 0) + (if c then (1 : Nat) else 0))
             then [exclusivityMsg] else [])

/-- `validate_vcon` (`lint.py:14-82`): the checks in source order, findings
concatenated, the first raised exception propagating. -/
def validate_vcon (iso : String → Bool) (vcon : Json) : Except PyErr (List String) :=
  exSeq (requiredFieldsCheck vcon)
    (exSeq (versionCheck vcon)
      (exSeq (uuidCheck vcon)
        (exSeq (timestampCheck iso vcon "created_at" createdAtMsg)
          (exSeq (timestampCheck iso vcon "updated_at" updatedAtMsg)
            (exSeq (arraySectionCheck vcon "parties" "parties must be an array" validate_party)
              (exSeq (arraySectionCheck vcon "dialog" "dialog must be an array" (validate_dialog iso))
                (exSeq (arraySectionCheck vcon "analysis" "analysis must be an array" validate_analysis)
                  (exSeq (arraySectionCheck vcon "attachments" "attachments must be an array" validate_attachment)
                    (exclusivityCheck vcon)))))))))

/-! File-level pipeline.  Directory walking, file opening and JSON parsing
are external collaborators (spec §1): a file is an abstract path plus the
`suffix` the standard library computes for it, and reading-and-parsing a
file is a parameter `read : FPath → ReadResult` whose failure modes are the
documented exceptions of `open` + `json.load`: `json.JSONDecodeError`,
`UnicodeDecodeError`, `IOError`. -/

/-- A candidate file: its path and its `Path.suffix`. -/
structure FPath where
  path : String
  suffix : String

/-- Outcome of `json.load(open(file_path, "r", encoding="utf-8"))`. -/
inductive ReadResult where
  | parsed (doc : Json) : ReadResult
  | jsonError (msg : String) : ReadResult
  | unicodeError (msg : String) : ReadResult
  | ioError (msg : String) : ReadResult

/-- Python `str.lower()` (character-wise lowering; ASCII suffices for
`".json"`). -/
def pyLower (s : String) : String :=
  String.mk (s.data.map Char.toLower)

/-- `isinstance(data, dict) and "vcon" in data` (`lint.py:160`). -/
def isDictWithVcon : Json → Bool
  | .obj kvs => hasKey kvs "vcon"
  | _ => false

/-- `is_potential_vcon_file` (`lint.py:152-162`): suffix test, then parse,
with `json.JSONDecodeError`, `UnicodeDecodeError` and `IOError` all caught
and mapped to `False`. -/
def is_potential_vcon_file (read : FPath → ReadResult) (p : FPath) : Bool :=
  if !(pyLower p.suffix == ".json") then false
  else
    match read p with
    | .parsed d => isDictWithVcon d
    | .jsonError _ => false
    | .unicodeError _ => false
    | .ioError _ => false

/-- `validate_file` (`lint.py:164-174`): `except json.JSONDecodeError` first,
then `except Exception` — the catch-all also recovers any exception raised
inside `validate_vcon` itself. -/
def validate_file (iso : String → Bool) (read : FPath → ReadResult) (p : FPath) :
    FPath × List String :=
  match read p with
  | .parsed d =>
    match validate_vcon iso d with
    | .ok errs => (p, errs)
    | .error e => (p, ["Unexpected error: " ++ pyErrStr e])
  | .jsonError m => (p, ["Invalid JSON: " ++ m])
  | .unicodeError m => (p, ["Unexpected error: " ++ m])
  | .ioError m => (p, ["Unexpected error: " ++ m])

/-- `lint.py:206-208`: `results = list(executor.map(lambda f:
validate_file(f), potential_files))`.  `ThreadPoolExecutor.map` is an
external collaborator; its documented contract — the iterator yields exactly
one result per input, in input order, whatever the completion order — is the
functional semantics embedded here. -/
def batchValidate (iso : String → Bool) (read : FPath → ReadResult)
    (files : List FPath) : List (FPath × List String) :=
  files.map (validate_file iso read)

/-! The migration transform, `src/migrations/2024_11_8.py`. -/

/-- Python `str.replace(pat, rep)` on character lists, scanning left to
right and skipping past each replacement, with fuel (one unit per examined
character; the caller passes the string's length).  Matches CPython for a
nonempty pattern, the only way the code calls it. -/
def replaceFuel (pat rep : List Char) : Nat → List Char → List Char
  | _, [] => []
  | 0, s => s
  | Nat.succ n, c :: rest =>
    if !pat.isEmpty && isPrefixOfChars pat (c :: rest) then
      rep ++ replaceFuel pat rep n (List.drop (pat.length - 1) rest)
    else
      c :: replaceFuel pat rep n rest

/-- Python `s.replace(pat, rep)` for strings. -/
def pyReplaceStr (s pat rep : String) : String :=
  String.mk (replaceFuel pat.data rep.data s.data.length s.data)

/-- Python `value.replace(pat, rep)`: only strings have the attribute. -/
def pyReplace (v : Json) (pat rep : String) : Except PyErr Json :=
  match v with
  | .str s => .ok (.str (pyReplaceStr s pat rep))
  | _ => .error .attributeError

/-- Update the value bound to `key` (Python `data[key] = v` on a dict whose
key is known present; unreachable for other shapes, on which the preceding
subscript read has already raised). -/
def objSet (j : Json) (key : String) (v : Json) : Json :=
  match j with
  | .obj kvs => .obj (kvs.map fun kv => if kv.1 == key then (kv.1, v) else kv)
  | _ => j

/-- Python `del data[key]`: dicts drop the key; every other shape raises
`TypeError`. -/
def pyDelItem : Json → String → Except PyErr Json
  | .obj kvs, key => .ok (.obj (kvs.filter fun kv => !(kv.1 == key)))
  | _, _ => .error .typeError

/-- `2024_11_8.py:21-31`: `data[field] = data[field].replace("+00+00:00",
"+00:00"); updated = True` — the flag is set whenever the field is present,
whether or not the replacement changed anything. -/
def timestampFix (data : Json) (field : String) : Except PyErr (Json × Bool) :=
  match pyIn field data with
  | .error e => .error e
  | .ok false => .ok (data, false)
  | .ok true =>
    match pyGetItem data field with
    | .error e => .error e
    | .ok v =>
      match pyReplace v "+00+00:00" "+00:00" with
      | .error e => .error e
      | .ok v2 => .ok (objSet data field v2, true)

/-- `2024_11_8.py:33-44`: `if key in data: del data[key]; updated = True`. -/
def removeKeyFix (data : Json) (key : String) : Except PyErr (Json × Bool) :=
  match pyIn key data with
  | .error e => .error e
  | .ok false => .ok (data, false)
  | .ok true =>
    match pyDelItem data key with
    | .error e => .error e
    | .ok d => .ok (d, true)

/-- The in-memory part of `migrate_file` (`2024_11_8.py:18-44`): the five
rewrite rules in source order, returning the resulting document and the
`updated` flag. -/
def migrate_core (data : Json) : Except PyErr (Json × Bool) :=
  match timestampFix data "created_at" with
  | .error e => .error e
  | .ok (d1, u1) =>
    match timestampFix d1 "updated_at" with
    | .error e => .error e
    | .ok (d2, u2) =>
      match removeKeyFix d2 "redacted" with
      | .error e => .error e
      | .ok (d3, u3) =>
        match removeKeyFix d3 "appended" with
        | .error e => .error e
        | .ok (d4, u4) =>
          match removeKeyFix d4 "group" with
          | .error e => .error e
          | .ok (d5, u5) => .ok (d5, u1 || u2 || u3 || u4 || u5)

/-- `migrate_file` (`2024_11_8.py:12-52`): first component is the returned
`(file_path, error_list)`; second component is the write-back, `some` new
content exactly when the code reopens the file for writing (`if updated:`),
`none` when the on-disk content is left untouched.  `except
json.JSONDecodeError` first, then `except Exception`, as in the source. -/
def migrate_file (read : FPath → ReadResult) (p : FPath) :
    (FPath × List String) × Option Json :=
  match read p with
  | .parsed d =>
    match migrate_core d with
    | .ok (d2, updated) => ((p, []), if updated then some d2 else none)
    | .error e => ((p, ["Unexpected error: " ++ pyErrStr e]), none)
  | .jsonError m => ((p, ["Invalid JSON: " ++ m]), none)
  | .unicodeError m => ((p, ["Unexpected error: " ++ m]), none)
  | .ioError m => ((p, ["Unexpected error: " ++ m]), none)

/-- `2024_11_8.py:97-99`: `results = executor.map(migrate_file,
potential_files)`, with the same `ThreadPoolExecutor.map` contract as
`batchValidate`. -/
def batchMigrate (read : FPath → ReadResult) (files : List FPath) :
    List ((FPath × List String) × Option Json) :=
  files.map (migrate_file read)

/-- A concrete stand-in for `datetime.fromisoformat` success, used to
instantiate theorems at closed inputs. -/
def isoTrue : String → Bool := fun _ => true

/-! Helper lemmas. -/

theorem data_append (a b : String) : (a ++ b).data = a.data ++ b.data := by
  obtain ⟨xs⟩ := a
  obtain ⟨ys⟩ := b
  rfl

theorem head_append (a b : String) (c : Char) (h : a.data.head? = some c) :
    (a ++ b).data.head? = some c := by
  rw [data_append]
  cases hd : a.data with
  | nil => rw [hd] at h; cases h
  | cons x xs =>
    rw [hd] at h
    simp at h
    simp [h]

theorem str_ne_of_suffix_ne (s : String) {a b : String} (h : a.data ≠ b.data) :
    s ++ a ≠ s ++ b := by
  intro he
  apply h
  have hd : (s ++ a).data = (s ++ b).data := congrArg String.data he
  rw [data_append, data_append] at hd
  exact List.append_cancel_left hd

theorem exSeq_ok {a b : Except PyErr (List String)} {l : List String}
    (h : exSeq a b = .ok l) :
    ∃ x y, a = .ok x ∧ b = .ok y ∧ l = x ++ y := by
  cases a with
  | error e => simp [exSeq] at h
  | ok xs =>
    cases b with
    | error e => simp [exSeq] at h
    | ok ys =>
      simp [exSeq] at h
      exact ⟨xs, ys, rfl, rfl, h.symm⟩

theorem validate_file_fst (iso : String → Bool) (read : FPath → ReadResult)
    (p : FPath) : (validate_file iso read p).1 = p := by
  cases hr : read p with
  | parsed d => cases hv : validate_vcon iso d <;> simp [validate_file, hr, hv]
  | jsonError m => simp [validate_file, hr]
  | unicodeError m => simp [validate_file, hr]
  | ioError m => simp [validate_file, hr]

/-! Characterization of the per-party checks on an object party: the exact
findings each rule of `validate_party` produces. -/

/-- Findings of the identifier rule (`lint.py:89-91`) on a party dict. -/
def partyIdentFindings (kvs : List (String × Json)) (i : Nat) : List String :=
  if hasKey kvs "tel" || (hasKey kvs "mailto" || hasKey kvs "name") then []
  else [partyIdentMsg i]

/-- Findings of the `tel` rule (`lint.py:94-95`) on a party dict whose `tel`,
if present, is a string. -/
def partyTelFindings (kvs : List (String × Json)) (i : Nat) : List String :=
  match lookupKey kvs "tel" with
  | some (.str s) => if isPrefixOfChars "+".data s.data then [] else [partyTelMsg i]
  | some _ => []
  | none => []

/-- Findings of the `mailto` rule (`lint.py:98-99`) on a party dict whose
`mailto`, if present, is a string. -/
def partyMailtoFindings (kvs : List (String × Json)) (i : Nat) : List String :=
  match lookupKey kvs "mailto" with
  | some (.str s) => if containsChars "@".data s.data then [] else [partyMailtoMsg i]
  | some _ => []
  | none => []

theorem validate_party_obj (kvs : List (String × Json)) (i : Nat)
    (htel : ∀ v, lookupKey kvs "tel" = some v → isStr v = true)
    (hmailto : ∀ v, lookupKey kvs "mailto" = some v → isStr v = true) :
    validate_party (.obj kvs) i =
      .ok (partyIdentFindings kvs i ++
        (partyTelFindings kvs i ++ partyMailtoFindings kvs i)) := by
  cases ht : lookupKey kvs "tel" with
  | some v =>
    have hv := htel v ht
    cases v
    case str s =>
      cases hm : lookupKey kvs "mailto" with
      | some w =>
        have hw := hmailto w hm
        cases w
        case str t =>
          simp [validate_party, partyIdentifierCheck, partyTelCheck, partyMailtoCheck,
            exSeq, pyIn, pyGetItem, pyStartsWith, hasKey, ht, hm,
            partyIdentFindings, partyTelFindings, partyMailtoFindings]
        all_goals simp [isStr] at hw
      | none =>
        simp [validate_party, partyIdentifierCheck, partyTelCheck, partyMailtoCheck,
          exSeq, pyIn, pyGetItem, pyStartsWith, hasKey, ht, hm,
          partyIdentFindings, partyTelFindings, partyMailtoFindings]
    all_goals simp [isStr] at hv
  | none =>
    cases hm : lookupKey kvs "mailto" with
    | some w =>
      have hw := hmailto w hm
      cases w
      case str t =>
        cases hn : (lookupKey kvs "name").isSome <;>
          simp [validate_party, partyIdentifierCheck, partyTelCheck, partyMailtoCheck,
            exSeq, pyIn, pyGetItem, pyStartsWith, hasKey, ht, hm, hn,
            partyIdentFindings, partyTelFindings, partyMailtoFindings]
      all_goals simp [isStr] at hw
    | none =>
      cases hn : (lookupKey kvs "name").isSome <;>
        simp [validate_party, partyIdentifierCheck, partyTelCheck, partyMailtoCheck,
          exSeq, pyIn, pyGetItem, pyStartsWith, hasKey, ht, hm, hn,
          partyIdentFindings, partyTelFindings, partyMailtoFindings]

/-! The three party messages for one index are pairwise distinct. -/

theorem partyIdentMsg_ne_telMsg (i : Nat) : partyIdentMsg i ≠ partyTelMsg i := by
  unfold partyIdentMsg partyTelMsg
  exact str_ne_of_suffix_ne _ (by decide)

theorem partyIdentMsg_ne_mailtoMsg (i : Nat) : partyIdentMsg i ≠ partyMailtoMsg i := by
  unfold partyIdentMsg partyMailtoMsg
  exact str_ne_of_suffix_ne _ (by decide)

theorem partyTelMsg_ne_mailtoMsg (i : Nat) : partyTelMsg i ≠ partyMailtoMsg i := by
  unfold partyTelMsg partyMailtoMsg
  exact str_ne_of_suffix_ne _ (by decide)

theorem partyIdentFindings_cases (kvs : List (String × Json)) (i : Nat) :
    partyIdentFindings kvs i = [] ∨ partyIdentFindings kvs i = [partyIdentMsg i] := by
  unfold partyIdentFindings
  repeat' split
  all_goals simp

theorem partyTelFindings_cases (kvs : List (String × Json)) (i : Nat) :
    partyTelFindings kvs i = [] ∨ partyTelFindings kvs i = [partyTelMsg i] := by
  unfold partyTelFindings
  repeat' split
  all_goals simp

theorem partyMailtoFindings_cases (kvs : List (String × Json)) (i : Nat) :
    partyMailtoFindings kvs i = [] ∨ partyMailtoFindings kvs i = [partyMailtoMsg i] := by
  unfold partyMailtoFindings
  repeat' split
  all_goals simp

/-! Characterization of the per-dialog checks on an object dialog entry. -/

/-- Findings of the required-field rule (`lint.py:107-110`) on a dialog dict. -/
def dialogRequiredFindings (kvs : List (String × Json)) (i : Nat) : List String :=
  (if hasKey kvs "type" then [] else [dialogMissingMsg i "type"]) ++
    ((if hasKey kvs "start" then [] else [dialogMissingMsg i "start"]) ++
      (if hasKey kvs "parties" then [] else [dialogMissingMsg i "parties"]))

/-- Findings of the type-enumeration rule (`lint.py:113-115`). -/
def dialogTypeFindings (kvs : List (String × Json)) (i : Nat) : List String :=
  match lookupKey kvs "type" with
  | some v => if validTypes.any (fun t => pyEqStr t v) then [] else [dialogTypeMsg i]
  | none => []

/-- Findings of the start-format rule (`lint.py:118-122`) on a dialog dict
whose `start`, if present, is a string. -/
def dialogStartFindings (iso : String → Bool) (kvs : List (String × Json))
    (i : Nat) : List String :=
  match lookupKey kvs "start" with
  | some (.str s) => if iso s then [] else [dialogStartMsg i]
  | some _ => []
  | none => []

/-- Findings of the parties-shape rule (`lint.py:125-127`). -/
def dialogPartiesFindings (kvs : List (String × Json)) (i : Nat) : List String :=
  match lookupKey kvs "parties" with
  | some v => if isIntOrListPy v then [] else [dialogPartiesMsg i]
  | none => []

/-- Findings of the duration rule (`lint.py:130-131`). -/
def dialogDurationFindings (kvs : List (String × Json)) (i : Nat) : List String :=
  match lookupKey kvs "duration" with
  | some v => if isNumPy v then [] else [dialogDurationMsg i]
  | none => []

theorem dialogRequiredCheck_obj (kvs : List (String × Json)) (i : Nat) :
    dialogRequiredCheck (.obj kvs) i = .ok (dialogRequiredFindings kvs i) := rfl

theorem dialogTypeCheck_obj (kvs : List (String × Json)) (i : Nat) :
    dialogTypeCheck (.obj kvs) i = .ok (dialogTypeFindings kvs i) := by
  unfold dialogTypeCheck dialogTypeFindings pyIn pyGetItem hasKey
  cases hl : lookupKey kvs "type" with
  | none => simp [hl]
  | some v => simp [hl]

theorem dialogStartCheck_obj (iso : String → Bool) (kvs : List (String × Json))
    (i : Nat) (hstart : ∀ v, lookupKey kvs "start" = some v → isStr v = true) :
    dialogStartCheck iso (.obj kvs) i = .ok (dialogStartFindings iso kvs i) := by
  unfold dialogStartCheck dialogStartFindings pyIn pyGetItem hasKey
  cases hl : lookupKey kvs "start" with
  | none => simp [hl]
  | some v =>
    have hv := hstart v hl
    cases v
    case str s => simp [hl]
    all_goals simp [isStr] at hv

theorem dialogPartiesCheck_obj (kvs : List (String × Json)) (i : Nat) :
    dialogPartiesCheck (.obj kvs) i = .ok (dialogPartiesFindings kvs i) := by
  unfold dialogPartiesCheck dialogPartiesFindings pyIn pyGetItem hasKey
  cases hl : lookupKey kvs "parties" with
  | none => simp [hl]
  | some v => simp [hl]

theorem dialogDurationCheck_obj (kvs : List (String × Json)) (i : Nat) :
    dialogDurationCheck (.obj kvs) i = .ok (dialogDurationFindings kvs i) := by
  unfold dialogDurationCheck dialogDurationFindings pyIn pyGetItem hasKey
  cases hl : lookupKey kvs "duration" with
  | none => simp [hl]
  | some v => simp [hl]

theorem validate_dialog_obj (iso : String → Bool) (kvs : List (String × Json))
    (i : Nat) (hstart : ∀ v, lookupKey kvs "start" = some v → isStr v = true) :
    validate_dialog iso (.obj kvs) i =
      .ok (dialogRequiredFindings kvs i ++
        (dialogTypeFindings kvs i ++
          (dialogStartFindings iso kvs i ++
            (dialogPartiesFindings kvs i ++ dialogDurationFindings kvs i)))) := by
  unfold validate_dialog
  rw [dialogRequiredCheck_obj, dialogTypeCheck_obj,
    dialogStartCheck_obj iso kvs i hstart, dialogPartiesCheck_obj,
    dialogDurationCheck_obj]
  simp [exSeq]

theorem dialogTypeFindings_cases (kvs : List (String × Json)) (i : Nat) :
    dialogTypeFindings kvs i = [] ∨ dialogTypeFindings kvs i = [dialogTypeMsg i] := by
  unfold dialogTypeFindings
  repeat' split
  all_goals simp

theorem dialogStartFindings_cases (iso : String → Bool)
    (kvs : List (String × Json)) (i : Nat) :
    dialogStartFindings iso kvs i = [] ∨
      dialogStartFindings iso kvs i = [dialogStartMsg i] := by
  unfold dialogStartFindings
  repeat' split
  all_goals simp

theorem dialogPartiesFindings_cases (kvs : List (String × Json)) (i : Nat) :
    dialogPartiesFindings kvs i = [] ∨
      dialogPartiesFindings kvs i = [dialogPartiesMsg i] := by
  unfold dialogPartiesFindings
  repeat' split
  all_goals simp

theorem dialogDurationFindings_cases (kvs : List (String × Json)) (i : Nat) :
    dialogDurationFindings kvs i = [] ∨
      dialogDurationFindings kvs i = [dialogDurationMsg i] := by
  unfold dialogDurationFindings
  repeat' split
  all_goals simp

/-- Two dialog messages for the same index differ when their suffixes do. -/
theorem dialog_ne (i : Nat) {a b : String} (h : a.data ≠ b.data) :
    (("Dialog " ++ toString i) ++ a) ≠ (("Dialog " ++ toString i) ++ b) :=
  str_ne_of_suffix_ne _ h

theorem lookup_none_of_hasKey_false (kvs : List (String × Json)) (k : String)
    (h : hasKey kvs k = false) : lookupKey kvs k = none := by
  unfold hasKey at h
  cases hl : lookupKey kvs k with
  | none => rfl
  | some v => rw [hl] at h; cases h

/-! No rule other than the mutual-exclusivity rule can produce its message:
every other finding begins with a different character (`M`, `I`, `U`, `P`,
`p`, `D`, `d`, `A`, `a`), while the exclusivity message begins with `r`. -/

/-- No message of the list is the mutual-exclusivity finding (witnessed by
its first character). -/
def noExclMsg (l : List String) : Prop := ∀ m ∈ l, m.data.head? ≠ some 'r'

theorem noExclMsg_nil : noExclMsg [] := by
  intro m hm
  cases hm

theorem noExclMsg_single {m : String} (h : m.data.head? ≠ some 'r') :
    noExclMsg [m] := by
  intro x hx
  rcases List.mem_singleton.mp hx with rfl
  exact h

theorem noExclMsg_append {a b : List String} (ha : noExclMsg a)
    (hb : noExclMsg b) : noExclMsg (a ++ b) := by
  intro m hm
  rcases List.mem_append.mp hm with h | h
  · exact ha m h
  · exact hb m h

theorem noExclMsg_if {c : Prop} [Decidable c] {m : String}
    (h : m.data.head? ≠ some 'r') : noExclMsg (if c then [] else [m]) := by
  split
  · exact noExclMsg_nil
  · exact noExclMsg_single h

theorem party_msg_head (i : Nat) (x : String) :
    (("Party " ++ toString i) ++ x).data.head? = some 'P' :=
  head_append _ _ _ (head_append _ _ _ rfl)

theorem party_msg_not_r (i : Nat) (x : String) :
    (("Party " ++ toString i) ++ x).data.head? ≠ some 'r' := by
  rw [party_msg_head]
  decide

theorem dialog_msg_head (i : Nat) (x : String) :
    (("Dialog " ++ toString i) ++ x).data.head? = some 'D' :=
  head_append _ _ _ (head_append _ _ _ rfl)

theorem dialog_msg_not_r (i : Nat) (x : String) :
    (("Dialog " ++ toString i) ++ x).data.head? ≠ some 'r' := by
  rw [dialog_msg_head]
  decide

theorem analysis_msg_head (i : Nat) (x : String) :
    (("Analysis " ++ toString i) ++ x).data.head? = some 'A' :=
  head_append _ _ _ (head_append _ _ _ rfl)

theorem analysis_msg_not_r (i : Nat) (x : String) :
    (("Analysis " ++ toString i) ++ x).data.head? ≠ some 'r' := by
  rw [analysis_msg_head]
  decide

theorem partyIdentifierCheck_noExcl (p : Json) (i : Nat) (l : List String)
    (h : partyIdentifierCheck p i = .ok l) : noExclMsg l := by
  unfold partyIdentifierCheck at h
  repeat' split at h
  all_goals first
    | (cases h; exact noExclMsg_nil)
    | (cases h; exact noExclMsg_single (party_msg_not_r i _))
    | cases h

theorem partyTelCheck_noExcl (p : Json) (i : Nat) (l : List String)
    (h : partyTelCheck p i = .ok l) : noExclMsg l := by
  unfold partyTelCheck at h
  repeat' split at h
  all_goals first
    | (cases h; exact noExclMsg_nil)
    | (cases h; exact noExclMsg_single (party_msg_not_r i _))
    | cases h

theorem partyMailtoCheck_noExcl (p : Json) (i : Nat) (l : List String)
    (h : partyMailtoCheck p i = .ok l) : noExclMsg l := by
  unfold partyMailtoCheck at h
  repeat' split at h
  all_goals first
    | (cases h; exact noExclMsg_nil)
    | (cases h; exact noExclMsg_single (party_msg_not_r i _))
    | cases h

theorem validate_party_noExcl (p : Json) (i : Nat) (l : List String)
    (h : validate_party p i = .ok l) : noExclMsg l := by
  unfold validate_party at h
  obtain ⟨x, y, hx, hy, rfl⟩ := exSeq_ok h
  obtain ⟨x2, y2, hx2, hy2, rfl⟩ := exSeq_ok hy
  exact noExclMsg_append (partyIdentifierCheck_noExcl p i x hx)
    (noExclMsg_append (partyTelCheck_noExcl p i x2 hx2)
      (partyMailtoCheck_noExcl p i y2 hy2))

theorem dialogRequiredCheck_noExcl (p : Json) (i : Nat) (l : List String)
    (h : dialogRequiredCheck p i = .ok l) : noExclMsg l := by
  unfold dialogRequiredCheck at h
  repeat' split at h
  all_goals try cases h
  all_goals
    repeat' first
      | exact noExclMsg_nil
      | exact noExclMsg_single (dialog_msg_not_r i _)
      | apply noExclMsg_append

theorem dialogTypeCheck_noExcl (p : Json) (i : Nat) (l : List String)
    (h : dialogTypeCheck p i = .ok l) : noExclMsg l := by
  unfold dialogTypeCheck at h
  repeat' split at h
  all_goals first
    | (cases h; exact noExclMsg_nil)
    | (cases h; exact noExclMsg_single (dialog_msg_not_r i _))
    | cases h

theorem dialogStartCheck_noExcl (iso : String → Bool) (p : Json) (i : Nat)
    (l : List String) (h : dialogStartCheck iso p i = .ok l) : noExclMsg l := by
  unfold dialogStartCheck at h
  repeat' split at h
  all_goals first
    | (cases h; exact noExclMsg_nil)
    | (cases h; exact noExclMsg_single (dialog_msg_not_r i _))
    | cases h

theorem dialogPartiesCheck_noExcl (p : Json) (i : Nat) (l : List String)
    (h : dialogPartiesCheck p i = .ok l) : noExclMsg l := by
  unfold dialogPartiesCheck at h
  repeat' split at h
  all_goals first
    | (cases h; exact noExclMsg_nil)
    | (cases h; exact noExclMsg_single (dialog_msg_not_r i _))
    | cases h

theorem dialogDurationCheck_noExcl (p : Json) (i : Nat) (l : List String)
    (h : dialogDurationCheck p i = .ok l) : noExclMsg l := by
  unfold dialogDurationCheck at h
  repeat' split at h
  all_goals first
    | (cases h; exact noExclMsg_nil)
    | (cases h; exact noExclMsg_single (dialog_msg_not_r i _))
    | cases h

theorem validate_dialog_noExcl (iso : String → Bool) (p : Json) (i : Nat)
    (l : List String) (h : validate_dialog iso p i = .ok l) : noExclMsg l := by
  unfold validate_dialog at h
  obtain ⟨x1, y1, hx1, hy1, rfl⟩ := exSeq_ok h
  obtain ⟨x2, y2, hx2, hy2, rfl⟩ := exSeq_ok hy1
  obtain ⟨x3, y3, hx3, hy3, rfl⟩ := exSeq_ok hy2
  obtain ⟨x4, y4, hx4, hy4, rfl⟩ := exSeq_ok hy3
  exact noExclMsg_append (dialogRequiredCheck_noExcl p i x1 hx1)
    (noExclMsg_append (dialogTypeCheck_noExcl p i x2 hx2)
      (noExclMsg_append (dialogStartCheck_noExcl iso p i x3 hx3)
        (noExclMsg_append (dialogPartiesCheck_noExcl p i x4 hx4)
          (dialogDurationCheck_noExcl p i y4 hy4))))

theorem validate_analysis_noExcl (p : Json) (i : Nat) (l : List String)
    (h : validate_analysis p i = .ok l) : noExclMsg l := by
  unfold validate_analysis at h
  repeat' split at h
  all_goals try cases h
  all_goals
    first
      | exact noExclMsg_nil
      | exact noExclMsg_single (analysis_msg_not_r i _)

theorem validate_attachment_noExcl (p : Json) (i : Nat) (l : List String)
    (h : validate_attachment p i = .ok l) : noExclMsg l := by
  cases h
  exact noExclMsg_nil

theorem validateEach_noExcl (f : Json → Nat → Except PyErr (List String))
    (hf : ∀ x j l, f x j = .ok l → noExclMsg l) :
    ∀ (xs : List Json) (j : Nat) (l : List String),
      validateEach f xs j = .ok l → noExclMsg l := by
  intro xs
  induction xs with
  | nil =>
    intro j l h
    unfold validateEach at h
    cases h
    exact noExclMsg_nil
  | cons x rest ih =>
    intro j l h
    unfold validateEach at h
    obtain ⟨a, b, ha, hb, rfl⟩ := exSeq_ok h
    exact noExclMsg_append (hf x j a ha) (ih (j + 1) b hb)

theorem arraySectionCheck_noExcl (vcon : Json) (field notArrayMsg : String)
    (f : Json → Nat → Except PyErr (List String))
    (hmsg : notArrayMsg.data.head? ≠ some 'r')
    (hf : ∀ x j l, f x j = .ok l → noExclMsg l) (l : List String)
    (h : arraySectionCheck vcon field notArrayMsg f = .ok l) : noExclMsg l := by
  unfold arraySectionCheck at h
  repeat' split at h
  all_goals first
    | (cases h; exact noExclMsg_nil)
    | (cases h; exact noExclMsg_single hmsg)
    | (exact validateEach_noExcl f hf _ _ _ h)
    | cases h

theorem requiredFieldsCheck_noExcl (p : Json) (l : List String)
    (h : requiredFieldsCheck p = .ok l) : noExclMsg l := by
  unfold requiredFieldsCheck at h
  repeat' split at h
  all_goals try cases h
  all_goals
    repeat' first
      | exact noExclMsg_nil
      | exact noExclMsg_single (by decide)
      | apply noExclMsg_append

theorem versionCheck_noExcl (p : Json) (l : List String)
    (h : versionCheck p = .ok l) : noExclMsg l := by
  unfold versionCheck at h
  repeat' split at h
  all_goals first
    | (cases h; exact noExclMsg_nil)
    | (cases h; exact noExclMsg_single (by decide))
    | cases h

theorem uuidCheck_noExcl (p : Json) (l : List String)
    (h : uuidCheck p = .ok l) : noExclMsg l := by
  unfold uuidCheck at h
  repeat' split at h
  all_goals first
    | (cases h; exact noExclMsg_nil)
    | (cases h; exact noExclMsg_single (by decide))
    | cases h

theorem timestampCheck_noExcl (iso : String → Bool) (p : Json)
    (field msg : String) (hmsg : msg.data.head? ≠ some 'r') (l : List String)
    (h : timestampCheck iso p field msg = .ok l) : noExclMsg l := by
  unfold timestampCheck at h
  repeat' split at h
  all_goals first
    | (cases h; exact noExclMsg_nil)
    | (cases h; exact noExclMsg_single hmsg)
    | cases h

theorem exclusivityCheck_obj (kvs : List (String × Json)) :
    exclusivityCheck (.obj kvs) =
      .ok (if 1 < exclusiveKeyCount kvs then [exclusivityMsg] else []) := rfl

theorem count_excl_zero {l : List String} (hl : noExclMsg l) :
    l.count exclusivityMsg = 0 := by
  rw [List.count_eq_zero]
  intro hm
  exact hl exclusivityMsg hm (by decide)

/-! Claim theorems. -/

/-- C1 (code bug in the source): `validate_vcon` is not total on structurally
malformed input, contradicting the spec's output contract (§4.2, §7).  A
party whose `tel` is an integer raises `AttributeError` from
`party["tel"].startswith("+")` (`lint.py:94`); a non-object document raises
`TypeError` from `"vcon" in vcon` (`lint.py:21`); a non-string `created_at`
raises `TypeError` from `datetime.fromisoformat` (`lint.py:35`), which only
`ValueError` protects.  No type-mismatch finding is produced in any of these
cases. -/
theorem c1_engine_raises_on_wrong_types :
    validate_vcon isoTrue (.obj [("parties", .arr [.obj [("tel", .int 5551234)]])])
      = .error .attributeError ∧
    validate_vcon isoTrue (.int 42) = .error .typeError ∧
    validate_vcon isoTrue
        (.obj [("vcon", .str "0.0.1"), ("uuid", .str "u"), ("created_at", .int 2024)])
      = .error .typeError :=
  ⟨rfl, rfl, rfl⟩

/-- C2 (code bug in the source): the migration transform is not idempotent.
On `created_at = "2024-09-05T21:22:52+00+00+00:00"` the first pass rewrites
to `"...+00+00:00"` and the second pass rewrites again to `"...+00:00"`, so
the two passes produce different content; moreover both passes report
`updated = True` (the flag is set on mere presence of the field,
`2024_11_8.py:22-24`), so the second pass writes back instead of reporting
"unchanged". -/
theorem c2_migration_not_idempotent :
    migrate_core (.obj [("created_at", .str "2024-09-05T21:22:52+00+00+00:00")])
      = .ok (.obj [("created_at", .str "2024-09-05T21:22:52+00+00:00")], true) ∧
    migrate_core (.obj [("created_at", .str "2024-09-05T21:22:52+00+00:00")])
      = .ok (.obj [("created_at", .str "2024-09-05T21:22:52+00:00")], true) ∧
    ("2024-09-05T21:22:52+00+00:00" : String) ≠ "2024-09-05T21:22:52+00:00" :=
  ⟨rfl, rfl, by decide⟩

/-- C3: for every discovered file list the batch run returns exactly one
outcome per input file, and the outcomes' carried paths are exactly the
input files, in order — no file dropped, duplicated or left without an
outcome. -/
theorem c3_batch_one_outcome_per_file (iso : String → Bool)
    (read : FPath → ReadResult) (files : List FPath) :
    (batchValidate iso read files).length = files.length ∧
    (batchValidate iso read files).map Prod.fst = files := by
  constructor
  · simp [batchValidate]
  · unfold batchValidate
    rw [List.map_map]
    have hcomp : Prod.fst ∘ validate_file iso read = id :=
      funext fun p => validate_file_fst iso read p
    rw [hcomp, List.map_id]

/-- C4: `validate_file` is a total function (never propagates an exception);
it always returns the input path, with exactly one synthetic finding on a
JSON parse error and exactly one on any other error, including an exception
escaping `validate_vcon` itself. -/
theorem c4_validate_file_captures_errors (iso : String → Bool)
    (read : FPath → ReadResult) (p : FPath) :
    (validate_file iso read p).1 = p ∧
    (∀ m, read p = .jsonError m →
      (validate_file iso read p).2 = ["Invalid JSON: " ++ m]) ∧
    (∀ m, read p = .unicodeError m →
      (validate_file iso read p).2 = ["Unexpected error: " ++ m]) ∧
    (∀ m, read p = .ioError m →
      (validate_file iso read p).2 = ["Unexpected error: " ++ m]) ∧
    (∀ d e, read p = .parsed d → validate_vcon iso d = .error e →
      (validate_file iso read p).2 = ["Unexpected error: " ++ pyErrStr e]) := by
  refine ⟨validate_file_fst iso read p, ?_, ?_, ?_, ?_⟩
  · intro m hm; simp [validate_file, hm]
  · intro m hm; simp [validate_file, hm]
  · intro m hm; simp [validate_file, hm]
  · intro d e hd he; simp [validate_file, hd, he]

/-- Instance of C4 at a concrete file whose content fails to parse. -/
theorem c4_validate_file_captures_errors_witness :
    (validate_file isoTrue (fun _ => ReadResult.jsonError "Expecting value")
        ⟨"a.json", ".json"⟩).2 = ["Invalid JSON: " ++ "Expecting value"] :=
  (c4_validate_file_captures_errors isoTrue
      (fun _ => ReadResult.jsonError "Expecting value") ⟨"a.json", ".json"⟩).2.1
    "Expecting value" rfl

/-- C5: the candidate classifier returns `true` exactly when the suffix
lowers to `.json` and the content parses to an object with a `vcon` key;
every modelled read failure yields `false`, and the function is total, so
the scan is never aborted. -/
theorem c5_classifier_iff (read : FPath → ReadResult) (p : FPath) :
    is_potential_vcon_file read p = true ↔
      (pyLower p.suffix = ".json" ∧
        ∃ d, read p = .parsed d ∧ isDictWithVcon d = true) := by
  unfold is_potential_vcon_file
  by_cases hs : pyLower p.suffix = ".json"
  · cases hr : read p with
    | parsed d => simp [hs, hr]
    | jsonError m => simp [hs, hr]
    | unicodeError m => simp [hs, hr]
    | ioError m => simp [hs, hr]
  · simp [hs]

/-- Instance of C5: a `.JSON` file (case-insensitive match) whose content is
an object with a `vcon` key is classified as a candidate. -/
theorem c5_classifier_iff_witness :
    is_potential_vcon_file (fun _ => ReadResult.parsed (.obj [("vcon", .str "0.0.1")]))
      ⟨"A.JSON", ".JSON"⟩ = true :=
  (c5_classifier_iff (fun _ => ReadResult.parsed (.obj [("vcon", .str "0.0.1")]))
      ⟨"A.JSON", ".JSON"⟩).mpr
    ⟨rfl, .obj [("vcon", .str "0.0.1")], rfl, rfl⟩

/-- C6: whenever `validate_vcon` returns a findings list for an object
document, that list contains the mutual-exclusivity message exactly once if
more than one of `redacted`, `appended`, `group` is present as a key
(whatever the values), and not at all otherwise — never one per offending
pair. -/
theorem c6_mutual_exclusivity_single_finding (iso : String → Bool)
    (kvs : List (String × Json)) (errs : List String)
    (h : validate_vcon iso (.obj kvs) = .ok errs) :
    errs.count exclusivityMsg = if 1 < exclusiveKeyCount kvs then 1 else 0 := by
  unfold validate_vcon at h
  obtain ⟨e1, r1, h1, hr1, rfl⟩ := exSeq_ok h
  obtain ⟨e2, r2, h2, hr2, rfl⟩ := exSeq_ok hr1
  obtain ⟨e3, r3, h3, hr3, rfl⟩ := exSeq_ok hr2
  obtain ⟨e4, r4, h4, hr4, rfl⟩ := exSeq_ok hr3
  obtain ⟨e5, r5, h5, hr5, rfl⟩ := exSeq_ok hr4
  obtain ⟨e6, r6, h6, hr6, rfl⟩ := exSeq_ok hr5
  obtain ⟨e7, r7, h7, hr7, rfl⟩ := exSeq_ok hr6
  obtain ⟨e8, r8, h8, hr8, rfl⟩ := exSeq_ok hr7
  obtain ⟨e9, e10, h9, h10, rfl⟩ := exSeq_ok hr8
  have hz1 := count_excl_zero (requiredFieldsCheck_noExcl _ _ h1)
  have hz2 := count_excl_zero (versionCheck_noExcl _ _ h2)
  have hz3 := count_excl_zero (uuidCheck_noExcl _ _ h3)
  have hz4 := count_excl_zero (timestampCheck_noExcl iso _ _ _ (by decide) _ h4)
  have hz5 := count_excl_zero (timestampCheck_noExcl iso _ _ _ (by decide) _ h5)
  have hz6 := count_excl_zero
    (arraySectionCheck_noExcl _ _ _ _ (by decide) validate_party_noExcl _ h6)
  have hz7 := count_excl_zero
    (arraySectionCheck_noExcl _ _ _ _ (by decide) (validate_dialog_noExcl iso) _ h7)
  have hz8 := count_excl_zero
    (arraySectionCheck_noExcl _ _ _ _ (by decide) validate_analysis_noExcl _ h8)
  have hz9 := count_excl_zero
    (arraySectionCheck_noExcl _ _ _ _ (by decide) validate_attachment_noExcl _ h9)
  have h10e : e10 = if 1 < exclusiveKeyCount kvs then [exclusivityMsg] else [] :=
    (Except.ok.inj ((exclusivityCheck_obj kvs).symm.trans h10)).symm
  subst h10e
  simp [List.count_append, hz1, hz2, hz3, hz4, hz5, hz6, hz7, hz8, hz9]
  split <;> simp

/-- Instance of C6 at the spec's example: a document with both `redacted`
and `group` gets exactly one mutual-exclusivity finding. -/
theorem c6_mutual_exclusivity_single_finding_witness :
    ([missingFieldMsg "vcon", missingFieldMsg "uuid", missingFieldMsg "created_at",
        exclusivityMsg] : List String).count exclusivityMsg
      = if 1 < exclusiveKeyCount [("redacted", Json.null), ("group", Json.null)]
        then 1 else 0 :=
  c6_mutual_exclusivity_single_finding isoTrue
    [("redacted", Json.null), ("group", Json.null)] _ rfl

/-- C7: for a party object with string-valued `tel`/`mailto` fields at
position `i`, `validate_party` produces exactly the identifier finding when
none of tel/mailto/name is present, exactly one position-`i` tel finding
when `tel` does not start with `+` (none when it does), exactly one
position-`i` mailto finding when `mailto` lacks `@` (none when it has one);
and one party's findings never suppress another party's, the per-element
loop concatenating every element's findings. -/
theorem c7_party_rules (kvs : List (String × Json)) (i : Nat)
    (htel : ∀ v, lookupKey kvs "tel" = some v → isStr v = true)
    (hmailto : ∀ v, lookupKey kvs "mailto" = some v → isStr v = true) :
    validate_party (.obj kvs) i =
      .ok (partyIdentFindings kvs i ++
        (partyTelFindings kvs i ++ partyMailtoFindings kvs i)) ∧
    (∀ errs, validate_party (.obj kvs) i = .ok errs →
      (errs.count (partyIdentMsg i)
          = if hasKey kvs "tel" || (hasKey kvs "mailto" || hasKey kvs "name")
            then 0 else 1) ∧
      (∀ s, lookupKey kvs "tel" = some (.str s) →
        errs.count (partyTelMsg i)
          = if isPrefixOfChars "+".data s.data then 0 else 1) ∧
      (lookupKey kvs "tel" = none → errs.count (partyTelMsg i) = 0) ∧
      (∀ s, lookupKey kvs "mailto" = some (.str s) →
        errs.count (partyMailtoMsg i)
          = if containsChars "@".data s.data then 0 else 1) ∧
      (lookupKey kvs "mailto" = none → errs.count (partyMailtoMsg i) = 0)) ∧
    (∀ p ps (j : Nat) e es, validate_party p j = .ok e →
      validateEach validate_party ps (j + 1) = .ok es →
      validateEach validate_party (p :: ps) j = .ok (e ++ es)) := by
  have hchar := validate_party_obj kvs i htel hmailto
  refine ⟨hchar, ?_, ?_⟩
  · intro errs herrs
    have heq : partyIdentFindings kvs i ++
        (partyTelFindings kvs i ++ partyMailtoFindings kvs i) = errs :=
      Except.ok.inj (hchar.symm.trans herrs)
    subst heq
    refine ⟨?_, ?_, ?_, ?_, ?_⟩
    · rcases partyTelFindings_cases kvs i with h2 | h2 <;>
      rcases partyMailtoFindings_cases kvs i with h3 | h3 <;>
        unfold partyIdentFindings <;>
        by_cases h1 : hasKey kvs "tel" || (hasKey kvs "mailto" || hasKey kvs "name") <;>
          simp [h1, h2, h3, List.count_append, List.count_cons,
            Ne.symm (partyIdentMsg_ne_telMsg i), Ne.symm (partyIdentMsg_ne_mailtoMsg i)]
    · intro s hs
      rcases partyIdentFindings_cases kvs i with h1 | h1 <;>
      rcases partyMailtoFindings_cases kvs i with h3 | h3 <;>
        by_cases hc : isPrefixOfChars "+".data s.data = true <;>
          simp [h1, h3, partyTelFindings, hs, hc, List.count_append, List.count_cons,
            partyIdentMsg_ne_telMsg i, Ne.symm (partyTelMsg_ne_mailtoMsg i)]
    · intro hs
      rcases partyIdentFindings_cases kvs i with h1 | h1 <;>
      rcases partyMailtoFindings_cases kvs i with h3 | h3 <;>
        simp [h1, h3, partyTelFindings, hs, List.count_append, List.count_cons,
          partyIdentMsg_ne_telMsg i, Ne.symm (partyTelMsg_ne_mailtoMsg i)]
    · intro s hs
      rcases partyIdentFindings_cases kvs i with h1 | h1 <;>
      rcases partyTelFindings_cases kvs i with h2 | h2 <;>
        by_cases hc : containsChars "@".data s.data = true <;>
          simp [h1, h2, partyMailtoFindings, hs, hc, List.count_append, List.count_cons,
            partyIdentMsg_ne_mailtoMsg i, partyTelMsg_ne_mailtoMsg i]
    · intro hs
      rcases partyIdentFindings_cases kvs i with h1 | h1 <;>
      rcases partyTelFindings_cases kvs i with h2 | h2 <;>
        simp [h1, h2, partyMailtoFindings, hs, List.count_append, List.count_cons,
          partyIdentMsg_ne_mailtoMsg i, partyTelMsg_ne_mailtoMsg i]
  · intro p ps j e es he hes
    simp [validateEach, exSeq, he, hes]

/-- Instance of C7 at the spec's example: `tel = "5551234"` yields exactly
one tel finding for party 0. -/
theorem c7_party_rules_witness :
    (["Party " ++ toString 0 ++ ": tel must start with '+'"] : List String).count
        (partyTelMsg 0) = 1 := by
  have h := c7_party_rules [("tel", Json.str "5551234")] 0
    (by intro v hv; cases hv; rfl)
    (by intro v hv; cases hv)
  have hc := (h.2.1 [partyTelMsg 0] (by exact h.1)).2.1 "5551234" rfl
  simpa using hc

/-- C8 counterexample: the claim as stated fails on the code.  A dialog with
`parties = true` (a JSON boolean, neither an integer nor an array) gets no
finding, because Python's `isinstance(True, (int, list))` holds (`bool` is a
subclass of `int`); and a dialog whose `start` is the integer 5 makes
`validate_dialog` raise `TypeError` (from `datetime.fromisoformat`) instead
of emitting findings at all. -/
theorem c8_counterexample :
    validate_dialog isoTrue
        (.obj [("type", .str "recording"), ("start", .str "2024-01-01T00:00:00"),
          ("parties", .bool true)]) 0 = .ok [] ∧
    validate_dialog isoTrue
        (.obj [("type", .str "recording"), ("start", .int 5), ("parties", .int 0)]) 0
      = .error .typeError :=
  ⟨rfl, rfl⟩

/-- C8 (amended): for a dialog object whose `start`, if present, is a string
(otherwise the engine raises, see C1): each missing required field yields
exactly one finding naming position `i`; a present `type` outside the four
literals yields exactly one finding naming `i` and listing the allowed set
(none when it is one of them); a present `parties` yields exactly one
finding unless it passes `isinstance(x, (int, list))` — an integer, an
array, or a Python boolean; a present `duration` yields exactly one finding
unless it passes `isinstance(x, (int, float))` — an integer, a float, or a
boolean. -/
theorem c8_dialog_rules (iso : String → Bool) (kvs : List (String × Json)) (i : Nat)
    (hstart : ∀ v, lookupKey kvs "start" = some v → isStr v = true) :
    validate_dialog iso (.obj kvs) i =
      .ok (dialogRequiredFindings kvs i ++
        (dialogTypeFindings kvs i ++
          (dialogStartFindings iso kvs i ++
            (dialogPartiesFindings kvs i ++ dialogDurationFindings kvs i)))) ∧
    (∀ errs, validate_dialog iso (.obj kvs) i = .ok errs →
      (hasKey kvs "type" = false → errs.count (dialogMissingMsg i "type") = 1) ∧
      (hasKey kvs "start" = false → errs.count (dialogMissingMsg i "start") = 1) ∧
      (hasKey kvs "parties" = false → errs.count (dialogMissingMsg i "parties") = 1) ∧
      (∀ v, lookupKey kvs "type" = some v →
        (validTypes.any fun t => pyEqStr t v) = false →
        errs.count (dialogTypeMsg i) = 1) ∧
      (∀ v, lookupKey kvs "type" = some v →
        (validTypes.any fun t => pyEqStr t v) = true →
        errs.count (dialogTypeMsg i) = 0) ∧
      (∀ v, lookupKey kvs "parties" = some v → isIntOrListPy v = false →
        errs.count (dialogPartiesMsg i) = 1) ∧
      (∀ v, lookupKey kvs "parties" = some v → isIntOrListPy v = true →
        errs.count (dialogPartiesMsg i) = 0) ∧
      (∀ v, lookupKey kvs "duration" = some v → isNumPy v = false →
        errs.count (dialogDurationMsg i) = 1)) := by
  have hchar := validate_dialog_obj iso kvs i hstart
  refine ⟨hchar, ?_⟩
  intro errs herrs
  have heq : dialogRequiredFindings kvs i ++
      (dialogTypeFindings kvs i ++
        (dialogStartFindings iso kvs i ++
          (dialogPartiesFindings kvs i ++ dialogDurationFindings kvs i))) = errs :=
    Except.ok.inj (hchar.symm.trans herrs)
  subst heq
  refine ⟨?_, ?_, ?_, ?_, ?_, ?_, ?_, ?_⟩
  · intro ht
    have hlt : lookupKey kvs "type" = none := lookup_none_of_hasKey_false _ _ ht
    have n1 : dialogMissingMsg i "start" ≠ dialogMissingMsg i "type" := dialog_ne i (by decide)
    have n2 : dialogMissingMsg i "parties" ≠ dialogMissingMsg i "type" := dialog_ne i (by decide)
    have n3 : dialogStartMsg i ≠ dialogMissingMsg i "type" := dialog_ne i (by decide)
    have n4 : dialogPartiesMsg i ≠ dialogMissingMsg i "type" := dialog_ne i (by decide)
    have n5 : dialogDurationMsg i ≠ dialogMissingMsg i "type" := dialog_ne i (by decide)
    rcases dialogStartFindings_cases iso kvs i with h3 | h3 <;>
    rcases dialogPartiesFindings_cases kvs i with h4 | h4 <;>
    rcases dialogDurationFindings_cases kvs i with h5 | h5 <;>
      by_cases hs : hasKey kvs "start" = true <;>
      by_cases hp : hasKey kvs "parties" = true <;>
        simp [dialogRequiredFindings, dialogTypeFindings, hlt, ht, hs, hp, h3, h4, h5,
          List.count_append, List.count_cons, n1, n2, n3, n4, n5]
  · intro hsk
    have hls : lookupKey kvs "start" = none := lookup_none_of_hasKey_false _ _ hsk
    have n1 : dialogMissingMsg i "type" ≠ dialogMissingMsg i "start" := dialog_ne i (by decide)
    have n2 : dialogMissingMsg i "parties" ≠ dialogMissingMsg i "start" := dialog_ne i (by decide)
    have n3 : dialogTypeMsg i ≠ dialogMissingMsg i "start" := dialog_ne i (by decide)
    have n4 : dialogPartiesMsg i ≠ dialogMissingMsg i "start" := dialog_ne i (by decide)
    have n5 : dialogDurationMsg i ≠ dialogMissingMsg i "start" := dialog_ne i (by decide)
    rcases dialogTypeFindings_cases kvs i with h2 | h2 <;>
    rcases dialogPartiesFindings_cases kvs i with h4 | h4 <;>
    rcases dialogDurationFindings_cases kvs i with h5 | h5 <;>
      by_cases htk : hasKey kvs "type" = true <;>
      by_cases hp : hasKey kvs "parties" = true <;>
        simp [dialogRequiredFindings, dialogStartFindings, hls, hsk, htk, hp, h2, h4, h5,
          List.count_append, List.count_cons, n1, n2, n3, n4, n5]
  · intro hpk
    have hlp : lookupKey kvs "parties" = none := lookup_none_of_hasKey_false _ _ hpk
    have n1 : dialogMissingMsg i "type" ≠ dialogMissingMsg i "parties" := dialog_ne i (by decide)
    have n2 : dialogMissingMsg i "start" ≠ dialogMissingMsg i "parties" := dialog_ne i (by decide)
    have n3 : dialogTypeMsg i ≠ dialogMissingMsg i "parties" := dialog_ne i (by decide)
    have n4 : dialogStartMsg i ≠ dialogMissingMsg i "parties" := dialog_ne i (by decide)
    have n5 : dialogDurationMsg i ≠ dialogMissingMsg i "parties" := dialog_ne i (by decide)
    rcases dialogTypeFindings_cases kvs i with h2 | h2 <;>
    rcases dialogStartFindings_cases iso kvs i with h3 | h3 <;>
    rcases dialogDurationFindings_cases kvs i with h5 | h5 <;>
      by_cases htk : hasKey kvs "type" = true <;>
      by_cases hs : hasKey kvs "start" = true <;>
        simp [dialogRequiredFindings, dialogPartiesFindings, hlp, hpk, htk, hs, h2, h3, h5,
          List.count_append, List.count_cons, n1, n2, n3, n4, n5]
  · intro v hv hbad
    have htk : hasKey kvs "type" = true := by simp [hasKey, hv]
    have n1 : dialogMissingMsg i "type" ≠ dialogTypeMsg i := dialog_ne i (by decide)
    have n2 : dialogMissingMsg i "start" ≠ dialogTypeMsg i := dialog_ne i (by decide)
    have n3 : dialogMissingMsg i "parties" ≠ dialogTypeMsg i := dialog_ne i (by decide)
    have n4 : dialogStartMsg i ≠ dialogTypeMsg i := dialog_ne i (by decide)
    have n5 : dialogPartiesMsg i ≠ dialogTypeMsg i := dialog_ne i (by decide)
    have n6 : dialogDurationMsg i ≠ dialogTypeMsg i := dialog_ne i (by decide)
    rcases dialogStartFindings_cases iso kvs i with h3 | h3 <;>
    rcases dialogPartiesFindings_cases kvs i with h4 | h4 <;>
    rcases dialogDurationFindings_cases kvs i with h5 | h5 <;>
      by_cases hs : hasKey kvs "start" = true <;>
      by_cases hp : hasKey kvs "parties" = true <;>
        simp [dialogRequiredFindings, dialogTypeFindings, hv, hbad, htk, hs, hp, h3, h4, h5,
          List.count_append, List.count_cons, n1, n2, n3, n4, n5, n6]
  · intro v hv hgood
    have htk : hasKey kvs "type" = true := by simp [hasKey, hv]
    have n1 : dialogMissingMsg i "type" ≠ dialogTypeMsg i := dialog_ne i (by decide)
    have n2 : dialogMissingMsg i "start" ≠ dialogTypeMsg i := dialog_ne i (by decide)
    have n3 : dialogMissingMsg i "parties" ≠ dialogTypeMsg i := dialog_ne i (by decide)
    have n4 : dialogStartMsg i ≠ dialogTypeMsg i := dialog_ne i (by decide)
    have n5 : dialogPartiesMsg i ≠ dialogTypeMsg i := dialog_ne i (by decide)
    have n6 : dialogDurationMsg i ≠ dialogTypeMsg i := dialog_ne i (by decide)
    rcases dialogStartFindings_cases iso kvs i with h3 | h3 <;>
    rcases dialogPartiesFindings_cases kvs i with h4 | h4 <;>
    rcases dialogDurationFindings_cases kvs i with h5 | h5 <;>
      by_cases hs : hasKey kvs "start" = true <;>
      by_cases hp : hasKey kvs "parties" = true <;>
        simp [dialogRequiredFindings, dialogTypeFindings, hv, hgood, htk, hs, hp, h3, h4, h5,
          List.count_append, List.count_cons, n1, n2, n3, n4, n5, n6]
  · intro v hv hbad
    have hpk : hasKey kvs "parties" = true := by simp [hasKey, hv]
    have n1 : dialogMissingMsg i "type" ≠ dialogPartiesMsg i := dialog_ne i (by decide)
    have n2 : dialogMissingMsg i "start" ≠ dialogPartiesMsg i := dialog_ne i (by decide)
    have n3 : dialogMissingMsg i "parties" ≠ dialogPartiesMsg i := dialog_ne i (by decide)
    have n4 : dialogTypeMsg i ≠ dialogPartiesMsg i := dialog_ne i (by decide)
    have n5 : dialogStartMsg i ≠ dialogPartiesMsg i := dialog_ne i (by decide)
    have n6 : dialogDurationMsg i ≠ dialogPartiesMsg i := dialog_ne i (by decide)
    rcases dialogTypeFindings_cases kvs i with h2 | h2 <;>
    rcases dialogStartFindings_cases iso kvs i with h3 | h3 <;>
    rcases dialogDurationFindings_cases kvs i with h5 | h5 <;>
      by_cases htk : hasKey kvs "type" = true <;>
      by_cases hs : hasKey kvs "start" = true <;>
        simp [dialogRequiredFindings, dialogPartiesFindings, hv, hbad, hpk, htk, hs, h2, h3, h5,
          List.count_append, List.count_cons, n1, n2, n3, n4, n5, n6]
  · intro v hv hgood
    have hpk : hasKey kvs "parties" = true := by simp [hasKey, hv]
    have n1 : dialogMissingMsg i "type" ≠ dialogPartiesMsg i := dialog_ne i (by decide)
    have n2 : dialogMissingMsg i "start" ≠ dialogPartiesMsg i := dialog_ne i (by decide)
    have n3 : dialogMissingMsg i "parties" ≠ dialogPartiesMsg i := dialog_ne i (by decide)
    have n4 : dialogTypeMsg i ≠ dialogPartiesMsg i := dialog_ne i (by decide)
    have n5 : dialogStartMsg i ≠ dialogPartiesMsg i := dialog_ne i (by decide)
    have n6 : dialogDurationMsg i ≠ dialogPartiesMsg i := dialog_ne i (by decide)
    rcases dialogTypeFindings_cases kvs i with h2 | h2 <;>
    rcases dialogStartFindings_cases iso kvs i with h3 | h3 <;>
    rcases dialogDurationFindings_cases kvs i with h5 | h5 <;>
      by_cases htk : hasKey kvs "type" = true <;>
      by_cases hs : hasKey kvs "start" = true <;>
        simp [dialogRequiredFindings, dialogPartiesFindings, hv, hgood, hpk, htk, hs, h2, h3, h5,
          List.count_append, List.count_cons, n1, n2, n3, n4, n5, n6]
  · intro v hv hbad
    have n1 : dialogMissingMsg i "type" ≠ dialogDurationMsg i := dialog_ne i (by decide)
    have n2 : dialogMissingMsg i "start" ≠ dialogDurationMsg i := dialog_ne i (by decide)
    have n3 : dialogMissingMsg i "parties" ≠ dialogDurationMsg i := dialog_ne i (by decide)
    have n4 : dialogTypeMsg i ≠ dialogDurationMsg i := dialog_ne i (by decide)
    have n5 : dialogStartMsg i ≠ dialogDurationMsg i := dialog_ne i (by decide)
    have n6 : dialogPartiesMsg i ≠ dialogDurationMsg i := dialog_ne i (by decide)
    rcases dialogTypeFindings_cases kvs i with h2 | h2 <;>
    rcases dialogStartFindings_cases iso kvs i with h3 | h3 <;>
    rcases dialogPartiesFindings_cases kvs i with h4 | h4 <;>
      by_cases htk : hasKey kvs "type" = true <;>
      by_cases hs : hasKey kvs "start" = true <;>
      by_cases hp : hasKey kvs "parties" = true <;>
        simp [dialogRequiredFindings, dialogDurationFindings, hv, hbad, htk, hs, hp, h2, h3, h4,
          List.count_append, List.count_cons, n1, n2, n3, n4, n5, n6]

/-- Instance of C8 at the spec's example: `type = "chat"` yields the
missing-field findings for `start` and `parties` and exactly the one
type-enumeration finding. -/
theorem c8_dialog_rules_witness :
    validate_dialog isoTrue (.obj [("type", Json.str "chat")]) 0 =
      .ok [dialogMissingMsg 0 "start", dialogMissingMsg 0 "parties", dialogTypeMsg 0] := by
  have h := c8_dialog_rules isoTrue [("type", Json.str "chat")] 0
    (by intro v hv; simp [lookupKey] at hv)
  simpa using h.1

/-- C9: `executor.map` yields results in input order, so for every index the
i-th outcome is the per-file operation applied to the i-th input, in both
the validate and the migrate pipeline (and there is no outcome past the
inputs' length). -/
theorem c9_batch_preserves_input_order (iso : String → Bool)
    (read : FPath → ReadResult) (files : List FPath) (i : Nat) :
    (batchValidate iso read files)[i]? = files[i]?.map (validate_file iso read) ∧
    (batchMigrate read files)[i]? = files[i]?.map (migrate_file read) := by
  constructor <;> simp [batchValidate, batchMigrate, List.getElem?_map]

/-- C10: `migrate_file` on a read or parse failure returns exactly one
synthetic finding and plans no write-back, and a write-back happens only
after a successful parse, only when the `updated` flag is set. -/
theorem c10_migrate_atomic_on_failure (read : FPath → ReadResult) (p : FPath) :
    (∀ m, read p = .jsonError m →
      migrate_file read p = ((p, ["Invalid JSON: " ++ m]), none)) ∧
    (∀ m, read p = .unicodeError m →
      migrate_file read p = ((p, ["Unexpected error: " ++ m]), none)) ∧
    (∀ m, read p = .ioError m →
      migrate_file read p = ((p, ["Unexpected error: " ++ m]), none)) ∧
    (∀ d e, read p = .parsed d → migrate_core d = .error e →
      migrate_file read p = ((p, ["Unexpected error: " ++ pyErrStr e]), none)) ∧
    (∀ d d2, read p = .parsed d → migrate_core d = .ok (d2, false) →
      (migrate_file read p).2 = none) ∧
    (∀ d d2, read p = .parsed d → migrate_core d = .ok (d2, true) →
      (migrate_file read p).2 = some d2) := by
  refine ⟨?_, ?_, ?_, ?_, ?_, ?_⟩
  · intro m hm; simp [migrate_file, hm]
  · intro m hm; simp [migrate_file, hm]
  · intro m hm; simp [migrate_file, hm]
  · intro d e hd he; simp [migrate_file, hd, he]
  · intro d d2 hd hc; simp [migrate_file, hd, hc]
  · intro d d2 hd hc; simp [migrate_file, hd, hc]

/-- Instance of C10 at a concrete file whose content fails to parse: one
finding, no write. -/
theorem c10_migrate_atomic_on_failure_witness :
    migrate_file (fun _ => ReadResult.jsonError "Expecting value")
        ⟨"b.json", ".json"⟩
      = ((⟨"b.json", ".json"⟩, ["Invalid JSON: " ++ "Expecting value"]), none) :=
  (c10_migrate_atomic_on_failure (fun _ => ReadResult.jsonError "Expecting value")
      ⟨"b.json", ".json"⟩).1 "Expecting value" rfl

end FakeVcons
